import Mathlib

/-!
Shallow embedding of mudsnake-lib protocols/telnet.py (MudTelnetProtocol)
and proofs about its negotiation, TTYPE handshake, NAWS parsing, MCCP
compression plumbing, send routing and line splitting.

Python strings are modelled as lists of characters (PyStr), Python bytes
values as lists of naturals below 256, and the protocol_flags dict as an
insertion-ordered association list.
-/

/-- A Python string, modelled as its list of characters. -/
abbrev PyStr := List Char

/-- Coerce a Lean string literal to the PyStr model. -/
def pyS (s : String) : PyStr := s.data

/-- Python str.upper() (ASCII case mapping, which covers every string the
source compares against). -/
def pyUpper (s : PyStr) : PyStr := s.map Char.toUpper

/-- Python whitespace recognised by str.strip(). -/
def pyIsSpace (c : Char) : Bool :=
  c == ' ' || c == '\t' || c == '\n' || c == '\r' || c == Char.ofNat 11 || c == Char.ofNat 12

/-- Python str.strip(): drop whitespace from both ends. -/
def pyStrip (s : PyStr) : PyStr :=
  ((s.dropWhile pyIsSpace).reverse.dropWhile pyIsSpace).reverse

/-- Python str.isdigit(): nonempty and all decimal digits. -/
def pyIsDigit (s : PyStr) : Bool := !s.isEmpty && s.all Char.isDigit

/-- Python int(s) on a digit string. -/
def pyToNat (s : PyStr) : Nat := s.foldl (fun acc c => 10 * acc + (c.toNat - 48)) 0

/-- Python lexicographic comparison a less-than b over code points. -/
def pyLexLt : PyStr → PyStr → Bool
  | [], [] => false
  | [], _ :: _ => true
  | _ :: _, [] => false
  | a :: as, b :: bs => if a.toNat < b.toNat then true
      else if b.toNat < a.toNat then false else pyLexLt as bs

/-- Python string comparison a greater-or-equal b. -/
def pyStrGE (a b : PyStr) : Bool := !pyLexLt a b

/-- A value stored in the protocol_flags dict: bool, int or str. -/
inductive FlagVal where
  | b (v : Bool)
  | n (v : Nat)
  | s (v : PyStr)
  deriving DecidableEq, Repr

/-- The protocol_flags dict: insertion-ordered key-value list. -/
abbrev Flags := List (PyStr × FlagVal)

/-- Dict lookup: flags.get(k). -/
def getFlag (fs : Flags) (k : PyStr) : Option FlagVal :=
  match fs with
  | [] => none
  | p :: rest => if p.1 = k then some p.2 else getFlag rest k

/-- Dict assignment flags[k] = v: update in place if the key exists,
otherwise append (Python dict insertion-order semantics). -/
def setFlag (fs : Flags) (k : PyStr) (v : FlagVal) : Flags :=
  match fs with
  | [] => [(k, v)]
  | p :: rest => if p.1 = k then (k, v) :: rest else p :: setFlag rest k v

/-- Dict update flags.update(kvs), applying assignments left to right. -/
def updateAll (fs : Flags) (kvs : List (PyStr × FlagVal)) : Flags :=
  kvs.foldl (fun f p => setFlag f p.1 p.2) fs

/-- Python truthiness of a flag value. -/
def pyTruthy : FlagVal → Bool
  | .b v => v
  | .n v => v != 0
  | .s v => !v.isEmpty

/-- Python flags.get(k, False), collapsing the missing case to False. -/
def pyGetDefaultFalse (fs : Flags) (k : PyStr) : FlagVal :=
  (getFlag fs k).getD (.b false)

/-! Telnet option codes used by the source (single bytes; values from the
twisted constants the source imports plus the chr() definitions). -/

def SGA : Nat := 3
def TTYPE : Nat := 24
def NAWS : Nat := 31
def LINEMODE : Nat := 34
def MSDP : Nat := 69
def MSSP : Nat := 70
def MCCP1 : Nat := 85
def MCCP2 : Nat := 86
def MCCP3 : Nat := 87
def MXP : Nat := 91
def GMCP : Nat := 201
def IAC : Nat := 255
def SB : Nat := 250
def SE : Nat := 240

/-- The MTTS bit to capability-name table (source lines 71 to 80). -/
def MTTS : List (Nat × PyStr) :=
  [ (128, pyS "PROXY"),
    (64, pyS "SCREENREADER"),
    (32, pyS "OSC_COLOR_PALETTE"),
    (16, pyS "MOUSE_TRACKING"),
    (8, pyS "XTERM256"),
    (4, pyS "UTF-8"),
    (2, pyS "VT100"),
    (1, pyS "ANSI") ]

/-- The fixed negotiation order (source line 96). -/
def NEGOTIATE_ORDER : List Nat := [SGA, NAWS, TTYPE, MCCP2, MCCP3, MSSP, MSDP, GMCP, MXP]

/-- The client names granted xterm256 support in step 1 (source lines 310 to 321). -/
def xterm256Names : List PyStr :=
  [ pyS "ATLANTIS", pyS "CMUD", pyS "KILDCLIENT", pyS "MUDLET", pyS "MUSHCLIENT",
    pyS "PUTTY", pyS "BEIP", pyS "POTATO", pyS "TINYFUGUE" ]

/-- Initial protocol_flags (source lines 127 to 141). -/
def initFlags : Flags :=
  [ (pyS "SCREENWIDTH", .n 78),
    (pyS "SCREENHEIGHT", .n 0),
    (pyS "FORCEDENDLINE", .b true),
    (pyS "ANSI", .b true),
    (pyS "XTERM256", .b false),
    (pyS "CLIENTNAME", .s (pyS "unknown")),
    (pyS "MCCP2", .b false),
    (pyS "MCCP3", .b false),
    (pyS "GMCP", .b false),
    (pyS "MSDP", .b false),
    (pyS "SCREENREADER", .b false),
    (pyS "ENCODING", .s (pyS "utf-8")),
    (pyS "NOPKEEPALIVE", .b true) ]

/-- The session state touched by negotiate_TTYPE: the flags dict, the step
counter, how many times handshake_done fired and how many TTYPE SEND
requests were emitted. handshake_done itself is not defined in the source
file. Modelled from the spec: handshake_done is the one-time
handshake-complete notification to the external command dispatcher, so it
is modelled as a notification counter. -/
structure TState where
  protocol_flags : Flags
  ttype_step : Nat
  handshakeDoneCount : Nat
  ttypeRequests : Nat
  deriving DecidableEq, Repr

/-- Initial TTYPE-relevant session state (constructor, source lines 127 to 143). -/
def initTState : TState := ⟨initFlags, 1, 0, 0⟩

/-- Outcome of option = join(data).lstrip(IS).decode() in negotiate_TTYPE:
either the decoded text, or the TypeError raised by join (caught with
pass, leaving option unbound), or the UnicodeDecodeError raised by decode
(not caught at all). -/
inductive DecodeResult where
  | ok (s : PyStr)
  | typeError
  | unicodeError
  deriving DecidableEq, Repr

/-- Python exceptions that can escape negotiate_TTYPE. -/
inductive PyErr where
  | unicodeDecodeError
  | unboundLocalError
  deriving DecidableEq, Repr

/-- Step 1 of negotiate_TTYPE (source lines 285 to 329), on a decoded
option string. The source assigns xterm256 and FORCEDENDLINE inside one
MUDLET branch; here the two assignments are written as two conditionals on
the same condition, which is equivalent. -/
def ttypeStep1 (option : PyStr) (st : TState) : TState :=
  let clientname := pyUpper option
  let xterm256 : Bool :=
    if List.isPrefixOf (pyS "MUDLET") clientname then
      pyStrGE (pyStrip (clientname.drop 6)) (pyS "1.1")
    else false
  let flags :=
    if List.isPrefixOf (pyS "MUDLET") clientname then
      setFlag st.protocol_flags (pyS "FORCEDENDLINE") (.b false)
    else st.protocol_flags
  let flags :=
    if List.isPrefixOf (pyS "TINTIN++") clientname then
      setFlag flags (pyS "FORCEDENDLINE") (.b true)
    else flags
  let xterm256 : Bool :=
    if List.isPrefixOf (pyS "XTERM") clientname
        || List.isSuffixOf (pyS "-256COLOR") clientname
        || xterm256Names.contains clientname then true
    else xterm256
  let flags := setFlag flags (pyS "ANSI") (.b true)
  let flags := setFlag flags (pyS "XTERM256") (.b xterm256)
  let flags := setFlag flags (pyS "CLIENTNAME") (.s clientname)
  { st with protocol_flags := flags,
            ttypeRequests := st.ttypeRequests + 1,
            ttype_step := st.ttype_step + 1 }

/-- Step 2 of negotiate_TTYPE (source lines 331 to 346). -/
def ttypeStep2 (option : PyStr) (st : TState) : TState :=
  let term := option
  let tupper := pyUpper term
  let xterm256 : Bool :=
    List.isSuffixOf (pyS "-256COLOR") tupper
      || (List.isSuffixOf (pyS "XTERM") tupper
          && !List.isSuffixOf (pyS "-COLOR") tupper)
  let flags :=
    if xterm256 then
      setFlag (setFlag st.protocol_flags (pyS "ANSI") (.b true)) (pyS "XTERM256") (.b xterm256)
    else st.protocol_flags
  let flags := setFlag flags (pyS "TERM") (.s term)
  { st with protocol_flags := flags,
            ttypeRequests := st.ttypeRequests + 1,
            ttype_step := st.ttype_step + 1 }

/-- The support dict built at step 3 for a numeric MTTS mask (source
lines 355 to 357). -/
def mttsSupport (n : Nat) (entries : List (Nat × PyStr)) : List (PyStr × FlagVal) :=
  (entries.filter (fun p => n &&& p.1 > 0)).map (fun p => (p.2, FlagVal.b true))

/-- Step 3 of negotiate_TTYPE (source lines 348 to 365). -/
def ttypeStep3 (option : PyStr) (st : TState) : TState :=
  let flags :=
    if List.isPrefixOf (pyS "MTTS") option then
      let rest := pyStrip (option.drop 4)
      if pyIsDigit rest then
        updateAll st.protocol_flags (mttsSupport (pyToNat rest) MTTS)
      else
        setFlag st.protocol_flags (pyUpper rest) (.b true)
    else st.protocol_flags
  let flags := setFlag flags (pyS "TTYPE") (.b true)
  { st with protocol_flags := flags,
            handshakeDoneCount := st.handshakeDoneCount + 1,
            ttype_step := st.ttype_step + 1 }

/-- negotiate_TTYPE (source lines 272 to 366). The guard reads
(options and options.get("TTYPE", False)) or ttype_step greater than 3.
On a TypeError from join the variable option stays unbound, so its first
use in each step raises UnboundLocalError, which the except AttributeError
clause does not catch; a UnicodeDecodeError from decode propagates
directly. -/
def negotiate_TTYPE (d : DecodeResult) (st : TState) : Except PyErr TState :=
  if (!st.protocol_flags.isEmpty && pyTruthy (pyGetDefaultFalse st.protocol_flags (pyS "TTYPE")))
      || st.ttype_step > 3 then
    .ok st
  else if d = .unicodeError then
    .error .unicodeDecodeError
  else if st.ttype_step = 1 then
    match d with
    | .ok option => .ok (ttypeStep1 option st)
    | _ => .error .unboundLocalError
  else if st.ttype_step = 2 then
    match d with
    | .ok option => .ok (ttypeStep2 option st)
    | _ => .error .unboundLocalError
  else if st.ttype_step = 3 then
    match d with
    | .ok option => .ok (ttypeStep3 option st)
    | _ => .error .unboundLocalError
  else
    .ok { st with ttype_step := st.ttype_step + 1 }

/-- Feed a sequence of TTYPE sub-negotiation payloads to the handler,
stopping at the first escaping exception. -/
def runTTYPE (ds : List DecodeResult) (st : TState) : Except PyErr TState :=
  match ds with
  | [] => .ok st
  | d :: rest =>
      match negotiate_TTYPE d st with
      | .ok st' => runTTYPE rest st'
      | .error e => .error e

/-- negotiate_NAWS (source lines 265 to 270). The payload is the list of
sub-negotiation bytes; int(codecs_encode(b0 + b1, "hex"), 16) of two bytes
is their big-endian 16-bit value. Any length other than 4 skips the body. -/
def negotiate_NAWS (data : List (Fin 256)) (fs : Flags) : Flags :=
  match data with
  | [d0, d1, d2, d3] =>
      let fs := setFlag fs (pyS "SCREENWIDTH") (.n (256 * d0.val + d1.val))
      setFlag fs (pyS "SCREENHEIGHT") (.n (256 * d2.val + d3.val))
  | _ => fs

/-- A Telnet negotiation verb sent by the engine. -/
inductive Verb where
  | willCmd
  | wontCmd
  | doCmd
  | dontCmd
  deriving DecidableEq, Repr

/-- The option-negotiation requests emitted by connectionMade in order
(source lines 161 to 167): self.do(LINEMODE) sends IAC DO LINEMODE, then
self.will(feature) sends IAC WILL feature for each entry of
NEGOTIATE_ORDER (all option states are fresh at connection start, so each
request goes out exactly once). -/
def connectionMade_requests : List (Verb × Nat) :=
  (Verb.doCmd, LINEMODE) :: NEGOTIATE_ORDER.map (fun f => (Verb.willCmd, f))

/-- A value passed through the send pipeline (opaque payload). -/
inductive SendVal where
  | str (s : PyStr)
  | raw (n : Nat)
  deriving DecidableEq, Repr

/-- One dispatch performed by send: sendText(v), sendPrompt(v), or
sendOOB(cmd, args...). -/
inductive SendAction where
  | text (v : SendVal)
  | prompt (v : SendVal)
  | oob (cmd : SendVal) (args : List SendVal)
  deriving DecidableEq, Repr

/-- send(**kwargs) (source lines 415 to 433): each keyword field is routed
by its name; any name other than text and prompt reaches the else branch,
which calls self.sendOOB(val) - the value alone, as the positional cmd
argument, with no further arguments. -/
def sendDispatch (kwargs : List (PyStr × SendVal)) : List SendAction :=
  kwargs.map (fun p =>
    if p.1 = pyS "text" then .text p.2
    else if p.1 = pyS "prompt" then .prompt p.2
    else .oob p.2 [])

/-- The routing the claim and spec describe for send. Modelled from the
spec: a field that is neither text nor prompt is sent as an out-of-band
command whose command name is that field name, with the field value as
its arguments. -/
def sendDispatchSpec (kwargs : List (PyStr × SendVal)) : List SendAction :=
  kwargs.map (fun p =>
    if p.1 = pyS "text" then .text p.2
    else if p.1 = pyS "prompt" then .prompt p.2
    else .oob (.str p.1) [p.2])

/-! MCCP2 disable and re-enable (claim C7). ZLIB_FLUSH is the integer
constant zlib.Z_SYNC_FLUSH (value 2), and ZLIB_COMPRESS is one
module-level compressobj created at import time (source lines 19 to 21);
nothing in the source ever rebinds it. -/

def ZLIB_FLUSH : Nat := 2

/-- One value handed to self.transport.write via _write: either a byte
string, or a bare Python int (which is what _write(ZLIB_FLUSH) passes). -/
inductive WriteEv where
  | bytes (bs : List Nat)
  | pyInt (n : Nat)
  deriving DecidableEq, Repr

/-- The MCCP2-relevant session view: the MCCP2 flag, the transport writes
made so far, and which compressor object the session would use for
compressData (the identity of the module-level ZLIB_COMPRESS). -/
structure MccpSession where
  mccp2 : Bool
  writes : List WriteEv
  zlibCompressRef : Nat
  deriving DecidableEq, Repr

/-- begin_MCCP2 (source lines 185 to 187). -/
def begin_MCCP2 (s : MccpSession) : MccpSession :=
  { s with writes := s.writes ++ [.bytes [IAC, SB, MCCP2, IAC, SE]], mccp2 := true }

/-- end_MCCP2 (source lines 189 to 191): _write(ZLIB_FLUSH) writes the
integer constant itself; the compressor is not touched. -/
def end_MCCP2 (s : MccpSession) : MccpSession :=
  { s with writes := s.writes ++ [.pyInt ZLIB_FLUSH], mccp2 := false }

/-- disable_MCCP2 (source lines 180 to 182). -/
def disable_MCCP2 (s : MccpSession) : MccpSession :=
  if s.mccp2 then end_MCCP2 s else s

/-- enable_MCCP2 (source lines 176 to 177). -/
def enable_MCCP2 (s : MccpSession) : MccpSession :=
  begin_MCCP2 s

/-- An MCCP2 session as created at import plus connection start: no
writes yet, compression off, using the module-level compressor object
(reference 0, the only one the module ever creates). -/
def initMccpSession : MccpSession := ⟨false, [], 0⟩

/-! Two concurrently open sessions sharing the module-level ZLIB_COMPRESS
(claim C8). The zlib compressobj interface is external to the repository,
so it is a parameter: a state type sigma with a compress step returning
the advanced state and the emitted block (compress(data) + flush(ZLIB_FLUSH)
in compressData, source lines 371 to 383). -/

structure TwoSessions (σ : Type) where
  zlibCompress : σ
  aMccp2 : Bool
  bMccp2 : Bool
  aOut : List (List Nat)
  bOut : List (List Nat)

/-- compressData (source lines 381 to 383): if the MCCP2 flag is set the
data goes through the module-level compressor, else it passes unchanged. -/
def compressData {σ : Type} (compress : σ → List Nat → σ × List Nat)
    (mccp2 : Bool) (cs : σ) (data : List Nat) : σ × List Nat :=
  if mccp2 then compress cs data else (cs, data)

/-- sendText on session A (source lines 385 to 398, renderOutgoing is the
identity): the written bytes go to the transport of A, and the shared
module-level compressor state advances. -/
def sendTextA {σ : Type} (compress : σ → List Nat → σ × List Nat)
    (w : TwoSessions σ) (data : List Nat) : TwoSessions σ :=
  let r := compressData compress w.aMccp2 w.zlibCompress data
  { w with zlibCompress := r.1, aOut := w.aOut ++ [r.2] }

/-- sendText on session B. -/
def sendTextB {σ : Type} (compress : σ → List Nat → σ × List Nat)
    (w : TwoSessions σ) (data : List Nat) : TwoSessions σ :=
  let r := compressData compress w.bMccp2 w.zlibCompress data
  { w with zlibCompress := r.1, bOut := w.bOut ++ [r.2] }

/-- A stateful compressor instance: its state is the history of bytes
already compressed, and each block it emits depends on that history (the
defining property of the deflate stream the source feeds, which carries
its dictionary across the whole session). -/
def histCompress (s : List Nat) (d : List Nat) : List Nat × List Nat :=
  (s ++ d, s ++ d)

/-- Two sessions, both with MCCP2 granted, over a fresh module-level
compressor. -/
def freshTwoSessions : TwoSessions (List Nat) := ⟨[], true, true, [], []⟩

/-! Line splitting (claim C10): applicationDataReceived and
processTextCommands, source lines 149 to 159. Bytes are naturals. -/

/-- The line delimiter b CRLF (source line 100). -/
def delimiter : List Nat := [13, 10]

/-- Split a byte string at the first occurrence of delim, returning the
part before and the part after, or none when delim does not occur. This
models both the Python membership test (delimiter in buffer is isSome)
and buffer.split(delimiter, 1). -/
def splitFirst (delim : List Nat) (bs : List Nat) : Option (List Nat × List Nat) :=
  if delim.isPrefixOf bs then some ([], bs.drop delim.length)
  else
    match bs with
    | [] => none
    | b :: rest => (splitFirst delim rest).map (fun pq => (b :: pq.1, pq.2))

/-- The per-session line-splitting state: the raw inbound buffer and the
queue of emitted text input events (each Python entry is
(text, [cmd], dict()); only cmd varies, so the event is the cmd bytes). -/
structure LineState where
  game_data_buffer : List Nat
  inputfuncs_buffer : List (List Nat)
  deriving DecidableEq, Repr

theorem splitFirst_eq_append {delim bs p q : List Nat}
    (h : splitFirst delim bs = some (p, q)) : bs = p ++ delim ++ q := by
  induction bs generalizing p q with
  | nil =>
      unfold splitFirst at h
      split at h
      · next hpre =>
          simp only [Option.some.injEq, Prod.mk.injEq] at h
          obtain ⟨hp, hq⟩ := h
          have hdel : delim = [] :=
            List.prefix_nil.mp (List.isPrefixOf_iff_prefix.mp hpre)
          simp [← hp, ← hq, hdel]
      · simp at h
  | cons b rest ih =>
      unfold splitFirst at h
      split at h
      · next hpre =>
          simp only [Option.some.injEq, Prod.mk.injEq] at h
          obtain ⟨hp, hq⟩ := h
          obtain ⟨t, ht⟩ := List.isPrefixOf_iff_prefix.mp hpre
          rw [← hp, ← hq, ← ht]
          simp [List.drop_left]
      · simp only [Option.map_eq_some'] at h
        obtain ⟨⟨p', q'⟩, hpq, heq⟩ := h
        simp only [Prod.mk.injEq] at heq
        obtain ⟨hp, hq⟩ := heq
        have hrest := ih hpq
        rw [← hp, ← hq]
        simp [hrest]

theorem splitFirst_nil_of_ne {delim : List Nat} (hd : delim ≠ []) :
    splitFirst delim [] = none := by
  unfold splitFirst
  split
  · next hpre =>
      exact absurd (List.prefix_nil.mp (List.isPrefixOf_iff_prefix.mp hpre)) hd
  · rfl

theorem splitFirst_left_none {delim bs p q : List Nat} (hd : delim ≠ [])
    (h : splitFirst delim bs = some (p, q)) : splitFirst delim p = none := by
  induction bs generalizing p q with
  | nil =>
      unfold splitFirst at h
      split at h
      · next hpre =>
          exact absurd (List.prefix_nil.mp (List.isPrefixOf_iff_prefix.mp hpre)) hd
      · simp at h
  | cons b rest ih =>
      unfold splitFirst at h
      split at h
      · next hpre =>
          simp only [Option.some.injEq, Prod.mk.injEq] at h
          rw [← h.1]
          exact splitFirst_nil_of_ne hd
      · next hnpre =>
          simp only [Option.map_eq_some'] at h
          obtain ⟨⟨p', q'⟩, hpq, heq⟩ := h
          simp only [Prod.mk.injEq] at heq
          obtain ⟨hp, hq⟩ := heq
          have hpnone := ih hpq
          rw [← hp]
          unfold splitFirst
          split
          · next hpre2 =>
              exfalso
              apply hnpre
              apply List.isPrefixOf_iff_prefix.mpr
              have hrest : rest = p' ++ delim ++ q' := splitFirst_eq_append hpq
              have h1 : delim <+: b :: p' := List.isPrefixOf_iff_prefix.mp hpre2
              have h2 : delim <+: (b :: p') ++ (delim ++ q') :=
                h1.trans (List.prefix_append _ _)
              simpa [hrest] using h2
          · simp [hpnone]

/-- processTextCommands (source lines 153 to 159): while the delimiter
occurs in the buffer, split off the first line, queue a text input event
for it, keep the remainder, and recurse while the remainder is nonempty. -/
def processTextCommands (st : LineState) : LineState :=
  match h : splitFirst delimiter st.game_data_buffer with
  | none => st
  | some (cmd, remaining) =>
      if remaining.isEmpty then ⟨remaining, st.inputfuncs_buffer ++ [cmd]⟩
      else processTextCommands ⟨remaining, st.inputfuncs_buffer ++ [cmd]⟩
termination_by st.game_data_buffer.length
decreasing_by
  have hb := splitFirst_eq_append h
  simp only [hb, List.length_append, delimiter, List.length_cons, List.length_nil]
  omega

/-- applicationDataReceived (source lines 149 to 151). -/
def applicationDataReceived (st : LineState) (data : List Nat) : LineState :=
  processTextCommands { st with game_data_buffer := st.game_data_buffer ++ data }

/-- Feed successive raw application-data chunks to the session. -/
def feedChunks (st : LineState) (chunks : List (List Nat)) : LineState :=
  chunks.foldl applicationDataReceived st

/-- Fresh session line state (constructor, source lines 145 to 147). -/
def initLineState : LineState := ⟨[], []⟩

/-- Rebuild a byte stream from emitted lines, each followed by the
delimiter, and a trailing buffer. -/
def glueLines (lines : List (List Nat)) (tail : List Nat) : List Nat :=
  lines.foldr (fun l acc => l ++ delimiter ++ acc) tail

theorem glueLines_append_tail (L : List (List Nat)) (t c : List Nat) :
    glueLines L (t ++ c) = glueLines L t ++ c := by
  induction L with
  | nil => rfl
  | cons l rest ih =>
      simp only [glueLines, List.foldr_cons] at ih ⊢
      rw [ih]
      simp [List.append_assoc]

theorem glueLines_append_lines (L₁ L₂ : List (List Nat)) (t : List Nat) :
    glueLines (L₁ ++ L₂) t = glueLines L₁ (glueLines L₂ t) := by
  simp [glueLines, List.foldr_append]

theorem processTextCommands_of_none {st : LineState}
    (h : splitFirst delimiter st.game_data_buffer = none) :
    processTextCommands st = st := by
  unfold processTextCommands
  split
  · rfl
  · next cmd remaining heq =>
      rw [h] at heq
      cases heq

theorem processTextCommands_of_some {st : LineState} {cmd remaining : List Nat}
    (h : splitFirst delimiter st.game_data_buffer = some (cmd, remaining)) :
    processTextCommands st =
      if remaining.isEmpty then ⟨remaining, st.inputfuncs_buffer ++ [cmd]⟩
      else processTextCommands ⟨remaining, st.inputfuncs_buffer ++ [cmd]⟩ := by
  conv_lhs => unfold processTextCommands
  split
  · next heq =>
      rw [h] at heq
      cases heq
  · next cmd' remaining' heq =>
      rw [h] at heq
      cases heq
      rfl

theorem processTextCommands_spec (st : LineState) :
    ∃ L, (processTextCommands st).inputfuncs_buffer = st.inputfuncs_buffer ++ L ∧
      glueLines L (processTextCommands st).game_data_buffer = st.game_data_buffer ∧
      (∀ l ∈ L, splitFirst delimiter l = none) ∧
      splitFirst delimiter (processTextCommands st).game_data_buffer = none := by
  induction st using processTextCommands.induct with
  | case1 st h =>
      have heq := processTextCommands_of_none h
      exact ⟨[], by simp [heq], by simp [heq, glueLines], by simp, by rw [heq]; exact h⟩
  | case2 st cmd remaining h hemp =>
      have heq : processTextCommands st = ⟨remaining, st.inputfuncs_buffer ++ [cmd]⟩ := by
        rw [processTextCommands_of_some h, if_pos hemp]
      have hrem : remaining = [] := by simpa using hemp
      have hbuf : st.game_data_buffer = cmd ++ delimiter ++ remaining :=
        splitFirst_eq_append h
      refine ⟨[cmd], ?_, ?_, ?_, ?_⟩
      · simp [heq]
      · simp [heq, glueLines, hbuf]
      · intro l hl
        simp at hl
        subst hl
        exact splitFirst_left_none (by simp [delimiter]) h
      · rw [heq]
        simpa [hrem] using
          splitFirst_nil_of_ne (show (delimiter : List Nat) ≠ [] by simp [delimiter])
  | case3 st cmd remaining h hemp ih =>
      have heq : processTextCommands st
          = processTextCommands ⟨remaining, st.inputfuncs_buffer ++ [cmd]⟩ := by
        rw [processTextCommands_of_some h, if_neg hemp]
      have hbuf : st.game_data_buffer = cmd ++ delimiter ++ remaining :=
        splitFirst_eq_append h
      obtain ⟨L', h1, h2, h3, h4⟩ := ih
      refine ⟨cmd :: L', ?_, ?_, ?_, ?_⟩
      · rw [heq, h1]
        simp
      · rw [heq]
        simp only [glueLines, List.foldr_cons] at h2 ⊢
        rw [h2]
        simp [hbuf]
      · intro l hl
        rcases List.mem_cons.mp hl with hl | hl
        · subst hl
          exact splitFirst_left_none (by simp [delimiter]) h
        · exact h3 l hl
      · rw [heq]
        exact h4

theorem feedChunks_spec (st : LineState)
    (hbuf : splitFirst delimiter st.game_data_buffer = none)
    (chunks : List (List Nat)) :
    ∃ L, (feedChunks st chunks).inputfuncs_buffer = st.inputfuncs_buffer ++ L ∧
      glueLines L (feedChunks st chunks).game_data_buffer
        = st.game_data_buffer ++ chunks.flatten ∧
      (∀ l ∈ L, splitFirst delimiter l = none) ∧
      splitFirst delimiter (feedChunks st chunks).game_data_buffer = none := by
  induction chunks generalizing st with
  | nil =>
      exact ⟨[], by simp [feedChunks], by simp [feedChunks, glueLines], by simp, by
        simpa [feedChunks] using hbuf⟩
  | cons c cs ih =>
      have hstep : feedChunks st (c :: cs)
          = feedChunks (processTextCommands ⟨st.game_data_buffer ++ c, st.inputfuncs_buffer⟩) cs := by
        simp [feedChunks, applicationDataReceived]
      obtain ⟨L₁, p1, p2, p3, p4⟩ :=
        processTextCommands_spec ⟨st.game_data_buffer ++ c, st.inputfuncs_buffer⟩
      obtain ⟨L₂, q1, q2, q3, q4⟩ := ih _ p4
      refine ⟨L₁ ++ L₂, ?_, ?_, ?_, ?_⟩
      · rw [hstep, q1, p1]
        simp
      · rw [hstep, glueLines_append_lines, q2, glueLines_append_tail, p2]
        simp
      · intro l hl
        rcases List.mem_append.mp hl with hl | hl
        · exact p3 l hl
        · exact q3 l hl
      · rw [hstep]
        exact q4

theorem getFlag_setFlag (fs : Flags) (k k' : PyStr) (v : FlagVal) :
    getFlag (setFlag fs k v) k' = if k' = k then some v else getFlag fs k' := by
  induction fs with
  | nil =>
      by_cases h : k' = k
      · subst h
        simp [setFlag, getFlag]
      · simp only [setFlag, getFlag, if_neg h]
        rw [if_neg (fun hh : k = k' => h hh.symm)]
  | cons p rest ih =>
      by_cases hpk : p.1 = k
      · simp only [setFlag, if_pos hpk, getFlag]
        by_cases h : k' = k
        · subst h
          simp
        · rw [if_neg (fun hh : k = k' => h hh.symm), if_neg h,
            if_neg (show ¬ p.1 = k' from fun hh => h ((hpk.symm.trans hh).symm))]
      · simp only [setFlag, if_neg hpk, getFlag]
        by_cases hpk' : p.1 = k'
        · have hk'k : ¬ k' = k := fun hh => hpk (hpk'.trans hh)
          rw [if_pos hpk', if_neg hk'k, if_pos hpk']
        · rw [if_neg hpk', ih, if_neg hpk']

theorem getFlag_updateAll_not_mem (fs : Flags) (kvs : List (PyStr × FlagVal))
    (c : PyStr) (hc : ∀ p ∈ kvs, p.1 ≠ c) :
    getFlag (updateAll fs kvs) c = getFlag fs c := by
  induction kvs generalizing fs with
  | nil => rfl
  | cons p rest ih =>
      have hrest : ∀ q ∈ rest, q.1 ≠ c := fun q hq => hc q (List.mem_cons_of_mem p hq)
      have hp : p.1 ≠ c := hc p (List.mem_cons_self p rest)
      calc getFlag (updateAll fs (p :: rest)) c
          = getFlag (updateAll (setFlag fs p.1 p.2) rest) c := rfl
        _ = getFlag (setFlag fs p.1 p.2) c := ih _ hrest
        _ = getFlag fs c := by
              rw [getFlag_setFlag, if_neg (fun h : c = p.1 => hp h.symm)]

theorem mttsSupport_cons (n : Nat) (p : Nat × PyStr) (rest : List (Nat × PyStr)) :
    mttsSupport n (p :: rest)
      = if n &&& p.1 > 0 then (p.2, FlagVal.b true) :: mttsSupport n rest
        else mttsSupport n rest := by
  simp only [mttsSupport, List.filter_cons]
  by_cases h : n &&& p.1 > 0 <;> simp [h]

theorem mttsSupport_keys (n : Nat) (entries : List (Nat × PyStr)) (k : PyStr)
    (hk : ∀ p ∈ entries, p.2 ≠ k) :
    ∀ q ∈ mttsSupport n entries, q.1 ≠ k := by
  intro q hq
  simp only [mttsSupport, List.mem_map, List.mem_filter] at hq
  obtain ⟨p, ⟨hpmem, _⟩, hpq⟩ := hq
  rw [← hpq]
  exact hk p hpmem

theorem getFlag_updateAll_mtts (n : Nat) (fs : Flags) (b : Nat) (c : PyStr)
    (entries : List (Nat × PyStr)) (hnd : (entries.map Prod.snd).Nodup)
    (hm : (b, c) ∈ entries) :
    getFlag (updateAll fs (mttsSupport n entries)) c
      = if n &&& b > 0 then some (.b true) else getFlag fs c := by
  induction entries generalizing fs with
  | nil => cases hm
  | cons p rest ih =>
      have hp2 : p.2 ∉ rest.map Prod.snd := by
        simp only [List.map_cons, List.nodup_cons] at hnd
        exact hnd.1
      have hndrest : (rest.map Prod.snd).Nodup := by
        simp only [List.map_cons, List.nodup_cons] at hnd
        exact hnd.2
      rcases List.mem_cons.mp hm with hm | hm
      · have hpb : p = (b, c) := hm.symm
        subst hpb
        have hcnot : ∀ q ∈ rest, q.2 ≠ c := by
          intro q hq hqc
          have hmem : q.2 ∈ rest.map Prod.snd := List.mem_map_of_mem Prod.snd hq
          rw [hqc] at hmem
          exact hp2 hmem
        rw [mttsSupport_cons]
        by_cases hbit : n &&& b > 0
        · rw [if_pos hbit, if_pos hbit]
          calc getFlag (updateAll fs ((c, FlagVal.b true) :: mttsSupport n rest)) c
              = getFlag (updateAll (setFlag fs c (.b true)) (mttsSupport n rest)) c := rfl
            _ = getFlag (setFlag fs c (.b true)) c :=
                getFlag_updateAll_not_mem _ _ _ (mttsSupport_keys n rest c hcnot)
            _ = some (.b true) := by rw [getFlag_setFlag, if_pos rfl]
        · rw [if_neg hbit, if_neg hbit]
          exact getFlag_updateAll_not_mem _ _ _ (mttsSupport_keys n rest c hcnot)
      · have hne : p.2 ≠ c := by
          intro hpc
          have hmem : c ∈ rest.map Prod.snd := by
            have h2 := List.mem_map_of_mem Prod.snd hm
            simpa using h2
          rw [hpc] at hp2
          exact hp2 hmem
        rw [mttsSupport_cons]
        by_cases hbit : n &&& p.1 > 0
        · rw [if_pos hbit]
          calc getFlag (updateAll fs ((p.2, FlagVal.b true) :: mttsSupport n rest)) c
              = getFlag (updateAll (setFlag fs p.2 (.b true)) (mttsSupport n rest)) c := rfl
            _ = if n &&& b > 0 then some (.b true)
                else getFlag (setFlag fs p.2 (.b true)) c := ih _ hndrest hm
            _ = if n &&& b > 0 then some (.b true) else getFlag fs c := by
                rw [getFlag_setFlag, if_neg (show ¬ c = p.2 from fun h => hne h.symm)]
        · rw [if_neg hbit]
          exact ih _ hndrest hm

instance {e a : Type} [DecidableEq e] [DecidableEq a] : DecidableEq (Except e a) := fun x y =>
  match x, y with
  | .ok u, .ok v =>
      if h : u = v then isTrue (by rw [h]) else isFalse (fun hh => by cases hh; exact h rfl)
  | .ok _, .error _ => isFalse (fun hh => by cases hh)
  | .error _, .ok _ => isFalse (fun hh => by cases hh)
  | .error u, .error v =>
      if h : u = v then isTrue (by rw [h]) else isFalse (fun hh => by cases hh; exact h rfl)

theorem setFlag_ne_nil (fs : Flags) (k : PyStr) (v : FlagVal) : setFlag fs k v ≠ [] := by
  cases fs with
  | nil => simp [setFlag]
  | cons p rest =>
      simp only [setFlag]
      split <;> simp

theorem ttypeStep1_TTYPE (o : PyStr) (st : TState) :
    getFlag (ttypeStep1 o st).protocol_flags (pyS "TTYPE")
      = getFlag st.protocol_flags (pyS "TTYPE") := by
  show getFlag (setFlag (setFlag (setFlag _ _ _) _ _) _ _) (pyS "TTYPE") = _
  rw [getFlag_setFlag, if_neg (by decide), getFlag_setFlag, if_neg (by decide),
    getFlag_setFlag, if_neg (by decide)]
  split
  · rw [getFlag_setFlag, if_neg (by decide)]
    split
    · rw [getFlag_setFlag, if_neg (by decide)]
    · rfl
  · split
    · rw [getFlag_setFlag, if_neg (by decide)]
    · rfl

theorem ttypeStep2_TTYPE (o : PyStr) (st : TState) :
    getFlag (ttypeStep2 o st).protocol_flags (pyS "TTYPE")
      = getFlag st.protocol_flags (pyS "TTYPE") := by
  show getFlag (setFlag _ _ _) (pyS "TTYPE") = _
  rw [getFlag_setFlag, if_neg (by decide)]
  split
  · rw [getFlag_setFlag, if_neg (by decide), getFlag_setFlag, if_neg (by decide)]
  · rfl

theorem ttypeStep3_TTYPE (o : PyStr) (st : TState) :
    getFlag (ttypeStep3 o st).protocol_flags (pyS "TTYPE") = some (.b true) := by
  show getFlag (setFlag _ (pyS "TTYPE") (.b true)) (pyS "TTYPE") = _
  rw [getFlag_setFlag, if_pos rfl]

theorem ttypeStep3_flags_ne_nil (o : PyStr) (st : TState) :
    (ttypeStep3 o st).protocol_flags ≠ [] := by
  show setFlag _ (pyS "TTYPE") (.b true) ≠ []
  exact setFlag_ne_nil _ _ _

theorem negotiate_TTYPE_done {d : DecodeResult} {s : TState}
    (h : ((!s.protocol_flags.isEmpty
        && pyTruthy (pyGetDefaultFalse s.protocol_flags (pyS "TTYPE"))) = true)
      ∨ s.ttype_step > 3) :
    negotiate_TTYPE d s = .ok s := by
  unfold negotiate_TTYPE
  have hb : (!s.protocol_flags.isEmpty
      && pyTruthy (pyGetDefaultFalse s.protocol_flags (pyS "TTYPE"))
      || decide (s.ttype_step > 3)) = true := by
    rcases h with h | h
    · rw [h]
      simp
    · simp [h]
  rw [if_pos hb]

theorem negotiate_TTYPE_guard_false {s : TState}
    (hT : getFlag s.protocol_flags (pyS "TTYPE") = none) (hstep : s.ttype_step ≤ 3) :
    (!s.protocol_flags.isEmpty
      && pyTruthy (pyGetDefaultFalse s.protocol_flags (pyS "TTYPE"))
      || decide (s.ttype_step > 3)) = false := by
  simp only [pyGetDefaultFalse, hT, Option.getD_none]
  simp only [pyTruthy, Bool.and_false, Bool.false_or]
  rw [decide_eq_false (by omega : ¬ s.ttype_step > 3)]

theorem negotiate_TTYPE_ok1 {o : PyStr} {s : TState}
    (hT : getFlag s.protocol_flags (pyS "TTYPE") = none) (h1 : s.ttype_step = 1) :
    negotiate_TTYPE (.ok o) s = .ok (ttypeStep1 o s) := by
  unfold negotiate_TTYPE
  have hng := negotiate_TTYPE_guard_false hT (by omega)
  rw [if_neg (by rw [hng]; simp), if_neg (by simp), if_pos h1]

theorem negotiate_TTYPE_ok2 {o : PyStr} {s : TState}
    (hT : getFlag s.protocol_flags (pyS "TTYPE") = none) (h2 : s.ttype_step = 2) :
    negotiate_TTYPE (.ok o) s = .ok (ttypeStep2 o s) := by
  unfold negotiate_TTYPE
  have hng := negotiate_TTYPE_guard_false hT (by omega)
  rw [if_neg (by rw [hng]; simp), if_neg (by simp), if_neg (by omega), if_pos h2]

theorem negotiate_TTYPE_ok3 {o : PyStr} {s : TState}
    (hT : getFlag s.protocol_flags (pyS "TTYPE") = none) (h3 : s.ttype_step = 3) :
    negotiate_TTYPE (.ok o) s = .ok (ttypeStep3 o s) := by
  unfold negotiate_TTYPE
  have hng := negotiate_TTYPE_guard_false hT (by omega)
  rw [if_neg (by rw [hng]; simp), if_neg (by simp), if_neg (by omega), if_neg (by omega),
    if_pos h3]

theorem runTTYPE_cons_ok {d : DecodeResult} {ds : List DecodeResult} {s s' : TState}
    (h : negotiate_TTYPE d s = .ok s') : runTTYPE (d :: ds) s = runTTYPE ds s' := by
  simp [runTTYPE, h]

/-- C2: the TTYPE handshake processes at most three sub-negotiation
payloads. From the fresh session, any three decoded payloads leave the
session with the TTYPE flag set, the step counter at 4, and exactly one
handshake_done notification fired; every further payload sequence leaves
that state unchanged, so the notification count stays 1 for the whole
session. In general, any payload arriving when the TTYPE flag is truthy
or when the step counter exceeds 3 leaves all session state unchanged. -/
theorem C2_handshake_bounded :
    (∀ (p₁ p₂ p₃ : PyStr) (rest : List DecodeResult),
      ∃ s3 : TState,
        runTTYPE [.ok p₁, .ok p₂, .ok p₃] initTState = .ok s3 ∧
        getFlag s3.protocol_flags (pyS "TTYPE") = some (.b true) ∧
        s3.ttype_step = 4 ∧
        s3.handshakeDoneCount = 1 ∧
        runTTYPE rest s3 = .ok s3) ∧
    (∀ (d : DecodeResult) (s : TState),
      (s.protocol_flags ≠ [] ∧
        pyTruthy (pyGetDefaultFalse s.protocol_flags (pyS "TTYPE")) = true)
        ∨ s.ttype_step > 3 →
      negotiate_TTYPE d s = .ok s) := by
  constructor
  · intro p₁ p₂ p₃ rest
    have hT0 : getFlag initTState.protocol_flags (pyS "TTYPE") = none := by decide
    have hT1 : getFlag (ttypeStep1 p₁ initTState).protocol_flags (pyS "TTYPE") = none :=
      (ttypeStep1_TTYPE p₁ initTState).trans hT0
    have hT2 : getFlag (ttypeStep2 p₂ (ttypeStep1 p₁ initTState)).protocol_flags
        (pyS "TTYPE") = none :=
      (ttypeStep2_TTYPE p₂ (ttypeStep1 p₁ initTState)).trans hT1
    have hrun : runTTYPE [.ok p₁, .ok p₂, .ok p₃] initTState
        = .ok (ttypeStep3 p₃ (ttypeStep2 p₂ (ttypeStep1 p₁ initTState))) := by
      rw [runTTYPE_cons_ok (negotiate_TTYPE_ok1 hT0 rfl),
        runTTYPE_cons_ok (negotiate_TTYPE_ok2 hT1 rfl),
        runTTYPE_cons_ok (negotiate_TTYPE_ok3 hT2 rfl)]
      rfl
    have hT3 : getFlag (ttypeStep3 p₃ (ttypeStep2 p₂
        (ttypeStep1 p₁ initTState))).protocol_flags (pyS "TTYPE") = some (.b true) :=
      ttypeStep3_TTYPE _ _
    have hnempty : (ttypeStep3 p₃ (ttypeStep2 p₂
        (ttypeStep1 p₁ initTState))).protocol_flags.isEmpty = false := by
      cases hfl : (ttypeStep3 p₃ (ttypeStep2 p₂
          (ttypeStep1 p₁ initTState))).protocol_flags with
      | nil => exact absurd hfl (ttypeStep3_flags_ne_nil _ _)
      | cons a l => rfl
    have hguard : ∀ d : DecodeResult,
        negotiate_TTYPE d (ttypeStep3 p₃ (ttypeStep2 p₂ (ttypeStep1 p₁ initTState)))
          = .ok (ttypeStep3 p₃ (ttypeStep2 p₂ (ttypeStep1 p₁ initTState))) := by
      intro d
      apply negotiate_TTYPE_done
      left
      rw [hnempty]
      simp [pyGetDefaultFalse, hT3, pyTruthy]
    have hrest : ∀ (ds : List DecodeResult),
        runTTYPE ds (ttypeStep3 p₃ (ttypeStep2 p₂ (ttypeStep1 p₁ initTState)))
          = .ok (ttypeStep3 p₃ (ttypeStep2 p₂ (ttypeStep1 p₁ initTState))) := by
      intro ds
      induction ds with
      | nil => rfl
      | cons d ds ih => rw [runTTYPE_cons_ok (hguard d), ih]
    exact ⟨_, hrun, hT3, rfl, rfl, hrest rest⟩
  · intro d s h
    apply negotiate_TTYPE_done
    rcases h with ⟨hne, ht⟩ | h
    · left
      have hfalse : s.protocol_flags.isEmpty = false := by
        cases hfl : s.protocol_flags with
        | nil => exact absurd hfl hne
        | cons a l => rfl
      rw [hfalse, ht]
      rfl
    · right
      exact h

/-- C2 witness: the spec handshake example plus a fourth ignored payload,
and the guard instantiated at a concrete done state. -/
theorem C2_handshake_bounded_witness :
    (∃ s3 : TState,
      runTTYPE [.ok (pyS "MUDLET 2.0"), .ok (pyS "ansi-256color"), .ok (pyS "MTTS 13")]
        initTState = .ok s3 ∧
      getFlag s3.protocol_flags (pyS "TTYPE") = some (.b true) ∧
      s3.ttype_step = 4 ∧
      s3.handshakeDoneCount = 1 ∧
      runTTYPE [.ok (pyS "IGNORED")] s3 = .ok s3) ∧
    negotiate_TTYPE .typeError ⟨initFlags, 4, 1, 2⟩ = .ok ⟨initFlags, 4, 1, 2⟩ :=
  ⟨C2_handshake_bounded.1 (pyS "MUDLET 2.0") (pyS "ansi-256color") (pyS "MTTS 13")
      [.ok (pyS "IGNORED")],
   C2_handshake_bounded.2 .typeError ⟨initFlags, 4, 1, 2⟩ (Or.inr (by decide))⟩

theorem isPrefixOf_append_self (l r : List Char) : List.isPrefixOf l (l ++ r) = true :=
  List.isPrefixOf_iff_prefix.mpr (List.prefix_append l r)

theorem mtts_drop4 (num : PyStr) : (pyS "MTTS" ++ num).drop 4 = num := by
  have h := List.drop_left (pyS "MTTS") num
  rw [show (pyS "MTTS").length = 4 from rfl] at h
  exact h

theorem ttypeStep3_mtts_numeric (num : PyStr) (st : TState)
    (hnum : pyIsDigit (pyStrip num) = true) :
    (ttypeStep3 (pyS "MTTS" ++ num) st).protocol_flags
      = setFlag (updateAll st.protocol_flags
          (mttsSupport (pyToNat (pyStrip num)) MTTS)) (pyS "TTYPE") (.b true) := by
  simp [ttypeStep3, isPrefixOf_append_self, mtts_drop4, hnum]

theorem ttypeStep3_mtts_string (t : PyStr) (st : TState)
    (hnd : pyIsDigit (pyStrip t) = false) :
    (ttypeStep3 (pyS "MTTS" ++ t) st).protocol_flags
      = setFlag (setFlag st.protocol_flags (pyUpper (pyStrip t)) (.b true))
          (pyS "TTYPE") (.b true) := by
  simp [ttypeStep3, isPrefixOf_append_self, mtts_drop4, hnd]

theorem mtts_snd_ne_TTYPE : ∀ p ∈ MTTS, p.2 ≠ pyS "TTYPE" := by decide

theorem mtts_snd_nodup : (MTTS.map Prod.snd).Nodup := by decide

/-- C1: for a TTYPE step-3 payload MTTS followed by a decimal number, each
of the 8 entries of the MTTS bit table whose bit is set in the number has
its capability flag set true, every MTTS entry whose bit is unset keeps
its previous value, and every key outside the table (other than the
handshake-completion flag TTYPE, which step 3 always sets, claim C2) is
unchanged; for a non-numeric remainder, that token upper-cased becomes a
capability flag set true, everything else (except TTYPE) unchanged; and
the concrete payload MTTS 13 sets ANSI, UTF-8 and XTERM256 all true. -/
theorem C1_mtts_bit_table (s : TState)
    (hT : getFlag s.protocol_flags (pyS "TTYPE") = none)
    (h3 : s.ttype_step = 3) :
    (∀ num : PyStr, pyIsDigit (pyStrip num) = true →
      ∃ s', negotiate_TTYPE (.ok (pyS "MTTS" ++ num)) s = .ok s' ∧
        (∀ p ∈ MTTS, getFlag s'.protocol_flags p.2
          = if pyToNat (pyStrip num) &&& p.1 > 0 then some (.b true)
            else getFlag s.protocol_flags p.2) ∧
        (∀ k : PyStr, (∀ p ∈ MTTS, p.2 ≠ k) → k ≠ pyS "TTYPE" →
          getFlag s'.protocol_flags k = getFlag s.protocol_flags k)) ∧
    (∀ t : PyStr, pyIsDigit (pyStrip t) = false →
      ∃ s', negotiate_TTYPE (.ok (pyS "MTTS" ++ t)) s = .ok s' ∧
        getFlag s'.protocol_flags (pyUpper (pyStrip t)) = some (.b true) ∧
        (∀ k : PyStr, k ≠ pyUpper (pyStrip t) → k ≠ pyS "TTYPE" →
          getFlag s'.protocol_flags k = getFlag s.protocol_flags k)) ∧
    (∃ s', negotiate_TTYPE (.ok (pyS "MTTS 13")) ⟨initFlags, 3, 0, 2⟩ = .ok s' ∧
      getFlag s'.protocol_flags (pyS "ANSI") = some (.b true) ∧
      getFlag s'.protocol_flags (pyS "UTF-8") = some (.b true) ∧
      getFlag s'.protocol_flags (pyS "XTERM256") = some (.b true)) := by
  refine ⟨?_, ?_, ?_⟩
  · intro num hnum
    refine ⟨ttypeStep3 (pyS "MTTS" ++ num) s, negotiate_TTYPE_ok3 hT h3, ?_, ?_⟩
    · intro p hp
      obtain ⟨b, c⟩ := p
      rw [ttypeStep3_mtts_numeric num s hnum, getFlag_setFlag,
        if_neg (mtts_snd_ne_TTYPE (b, c) hp),
        getFlag_updateAll_mtts _ _ b c MTTS mtts_snd_nodup hp]
    · intro k hk hkT
      rw [ttypeStep3_mtts_numeric num s hnum, getFlag_setFlag, if_neg hkT,
        getFlag_updateAll_not_mem _ _ _ (mttsSupport_keys _ MTTS k hk)]
  · intro t hnd
    refine ⟨ttypeStep3 (pyS "MTTS" ++ t) s, negotiate_TTYPE_ok3 hT h3, ?_, ?_⟩
    · rw [ttypeStep3_mtts_string t s hnd, getFlag_setFlag]
      by_cases hu : pyUpper (pyStrip t) = pyS "TTYPE"
      · rw [if_pos hu]
      · rw [if_neg hu, getFlag_setFlag, if_pos rfl]
    · intro k hku hkT
      rw [ttypeStep3_mtts_string t s hnd, getFlag_setFlag, if_neg hkT,
        getFlag_setFlag, if_neg hku]
  · exact ⟨ttypeStep3 (pyS "MTTS 13") ⟨initFlags, 3, 0, 2⟩,
      by decide, by decide, by decide, by decide⟩

/-- C1 witness: the numeric branch instantiated at the payload MTTS 13
from the fresh step-3 state. -/
theorem C1_mtts_bit_table_witness :
    ∃ s', negotiate_TTYPE (.ok (pyS "MTTS" ++ pyS " 13")) ⟨initFlags, 3, 0, 2⟩ = .ok s' ∧
      (∀ p ∈ MTTS, getFlag s'.protocol_flags p.2
        = if pyToNat (pyStrip (pyS " 13")) &&& p.1 > 0 then some (.b true)
          else getFlag (TState.mk initFlags 3 0 2).protocol_flags p.2) ∧
      (∀ k : PyStr, (∀ p ∈ MTTS, p.2 ≠ k) → k ≠ pyS "TTYPE" →
        getFlag s'.protocol_flags k
          = getFlag (TState.mk initFlags 3 0 2).protocol_flags k) :=
  (C1_mtts_bit_table ⟨initFlags, 3, 0, 2⟩ (by decide) rfl).1 (pyS " 13") (by decide)

/-- C6 (code bug evidence): a step-1 TTYPE payload that is malformed makes
the handler raise instead of recording client name UNKNOWN. A payload that
is not decodable as text raises UnicodeDecodeError at decode, which
nothing catches; a payload that is not joinable raises TypeError, which is
caught with pass, leaving the local variable option unbound, so the next
use of option raises UnboundLocalError, which the except AttributeError
clause cannot catch. Either way the handler raises, CLIENTNAME stays
unset, and the step counter does not advance. -/
theorem C6_malformed_step1_raises :
    negotiate_TTYPE .unicodeError initTState = .error .unicodeDecodeError ∧
    negotiate_TTYPE .typeError initTState = .error .unboundLocalError := by
  constructor <;> decide

/-- C3: a 4-byte NAWS payload sets SCREENWIDTH to the big-endian 16-bit
value of bytes 0..1 and SCREENHEIGHT to the big-endian 16-bit value of
bytes 2..3; the payload 0x00 0x50 0x00 0x18 yields width 80 and height
24; and a payload of any other length leaves the flags dict unchanged
(the handler body is skipped entirely, so no error can escape). -/
theorem C3_naws (fs : Flags) :
    (∀ d0 d1 d2 d3 : Fin 256,
      negotiate_NAWS [d0, d1, d2, d3] fs
        = setFlag (setFlag fs (pyS "SCREENWIDTH") (.n (256 * d0.val + d1.val)))
            (pyS "SCREENHEIGHT") (.n (256 * d2.val + d3.val))) ∧
    (getFlag (negotiate_NAWS [0, 0x50, 0, 0x18] fs) (pyS "SCREENWIDTH")
        = some (.n 80) ∧
      getFlag (negotiate_NAWS [0, 0x50, 0, 0x18] fs) (pyS "SCREENHEIGHT")
        = some (.n 24)) ∧
    (∀ data : List (Fin 256), data.length ≠ 4 → negotiate_NAWS data fs = fs) := by
  have hconc : negotiate_NAWS [0, 0x50, 0, 0x18] fs
      = setFlag (setFlag fs (pyS "SCREENWIDTH") (.n 80)) (pyS "SCREENHEIGHT") (.n 24) := rfl
  refine ⟨?_, ⟨?_, ?_⟩, ?_⟩
  · intro d0 d1 d2 d3
    rfl
  · rw [hconc, getFlag_setFlag, if_neg (by decide), getFlag_setFlag, if_pos rfl]
  · rw [hconc, getFlag_setFlag, if_pos rfl]
  · intro data hlen
    match data, hlen with
    | [], _ => rfl
    | [_], _ => rfl
    | [_, _], _ => rfl
    | [_, _, _], _ => rfl
    | [_, _, _, _], hlen => exact (hlen (by simp)).elim
    | _ :: _ :: _ :: _ :: _ :: _, _ => rfl

/-- C3 witness: the concrete 4-byte payload and a 3-byte payload on the
initial flags. -/
theorem C3_naws_witness :
    negotiate_NAWS [0, 0x50, 0, 0x18] initFlags
      = setFlag (setFlag initFlags (pyS "SCREENWIDTH") (.n 80))
          (pyS "SCREENHEIGHT") (.n 24) ∧
    negotiate_NAWS [0, 0x50, 0] initFlags = initFlags :=
  ⟨(C3_naws initFlags).1 0 0x50 0 0x18,
   (C3_naws initFlags).2.2 [0, 0x50, 0] (by decide)⟩

/-- C4 (code bug evidence): in send, a keyword field named neither text
nor prompt reaches the else branch self.sendOOB(val): the field VALUE is
passed as the positional cmd argument and the field NAME is discarded,
whereas the claim and the spec contract say the field name becomes the
out-of-band command name with the value as its arguments. At the field
(vitals, hp) the code emits an OOB command whose command is the value hp
with no arguments, not a command named vitals. The text and prompt
routings match the claim. -/
theorem C4_send_oob_drops_field_name :
    sendDispatch [(pyS "vitals", .str (pyS "hp"))]
      = [SendAction.oob (.str (pyS "hp")) []] ∧
    sendDispatchSpec [(pyS "vitals", .str (pyS "hp"))]
      = [SendAction.oob (.str (pyS "vitals")) [.str (pyS "hp")]] ∧
    sendDispatch [(pyS "vitals", .str (pyS "hp"))]
      ≠ sendDispatchSpec [(pyS "vitals", .str (pyS "hp"))] ∧
    (∀ v : SendVal, sendDispatch [(pyS "text", v)] = [SendAction.text v] ∧
      sendDispatch [(pyS "prompt", v)] = [SendAction.prompt v]) := by
  refine ⟨by decide, by decide, by decide, ?_⟩
  intro v
  constructor <;> rfl

/-- C5 counterexample: at connection start the engine never sends a DONT
request for LINEMODE; its first request is DO LINEMODE (self.do at source
line 161), so the claim that line editing is declined via DONT is false. -/
theorem C5_counterexample :
    (Verb.dontCmd, LINEMODE) ∉ connectionMade_requests ∧
    connectionMade_requests.head? = some (Verb.doCmd, LINEMODE) := by
  constructor <;> decide

/-- C5 amended: at connection start, the engine addresses the LINEMODE
option immediately and unconditionally with a DO request (asking the
client to enable line-mode negotiation, with an errback that merely
disables local handling on refusal); this is its first request on every
connection, and no other verb is ever sent for LINEMODE at connection
start. -/
theorem C5_do_linemode :
    connectionMade_requests.head? = some (Verb.doCmd, LINEMODE) ∧
    (∀ v, (v, LINEMODE) ∈ connectionMade_requests → v = Verb.doCmd) := by
  constructor
  · decide
  · intro v hv
    cases v <;> revert hv <;> decide

/-- C9: connectionMade issues WILL for every extension option exactly
once, in the fixed priority order suppress-go-ahead (SGA, 3), window-size
(NAWS, 31), terminal-type (TTYPE, 24), outbound compression (MCCP2, 86),
inbound compression (MCCP3, 87), server-status (MSSP, 70), structured
data (MSDP, 69), generic communication (GMCP, 201), markup extension
(MXP, 91), so the compression options precede the payload-heavy data
protocols. -/
theorem C9_negotiate_order :
    connectionMade_requests.filterMap
        (fun p => if p.1 = Verb.willCmd then some p.2 else none)
      = [3, 31, 24, 86, 87, 70, 69, 201, 91] ∧
    ([3, 31, 24, 86, 87, 70, 69, 201, 91] : List Nat).Nodup := by
  constructor <;> decide

/-- C7 (code bug evidence): turning MCCP2 off mid-session while active
writes the bare integer constant ZLIB_FLUSH (zlib.Z_SYNC_FLUSH, value 2)
to the transport, flushing nothing out of the compressor (no byte-string
write is added by the disable), and the module-level compressor object is
untouched, so a later re-enable reuses the same compressor instead of a
fresh one. -/
theorem C7_end_mccp2_no_flush :
    (disable_MCCP2 (begin_MCCP2 initMccpSession)).writes
      = (begin_MCCP2 initMccpSession).writes ++ [WriteEv.pyInt 2] ∧
    (∀ bs : List Nat,
      WriteEv.bytes bs ∈ (disable_MCCP2 (begin_MCCP2 initMccpSession)).writes →
      WriteEv.bytes bs ∈ (begin_MCCP2 initMccpSession).writes) ∧
    (enable_MCCP2 (disable_MCCP2 (begin_MCCP2 initMccpSession))).zlibCompressRef
      = initMccpSession.zlibCompressRef := by
  refine ⟨by decide, ?_, by decide⟩
  intro bs hm
  have hw : (disable_MCCP2 (begin_MCCP2 initMccpSession)).writes
      = (begin_MCCP2 initMccpSession).writes ++ [WriteEv.pyInt 2] := by decide
  rw [hw] at hm
  rcases List.mem_append.mp hm with h | h
  · exact h
  · simp at h

/-- C7 witness: the byte-string writes present after the disable are
exactly those already made before it. -/
theorem C7_end_mccp2_no_flush_witness :
    WriteEv.bytes [255, 250, 86, 255, 240] ∈ (begin_MCCP2 initMccpSession).writes :=
  C7_end_mccp2_no_flush.2.1 [255, 250, 86, 255, 240] (by decide)

/-- C8 (code bug evidence): both sessions route compressData through the
single module-level ZLIB_COMPRESS object, so one session's compressed
output depends on the other session's activity: with a history-carrying
compressor state (the defining behaviour of the stateful deflate stream
the source creates once at import), session B sending the same bytes from
the same own-session state produces different output depending on whether
session A sent data first, refuting exclusive per-session ownership. -/
theorem C8_shared_compressor_leak :
    (sendTextB histCompress (sendTextA histCompress freshTwoSessions [2]) [1]).bOut
      ≠ (sendTextB histCompress freshTwoSessions [1]).bOut ∧
    (sendTextB histCompress (sendTextA histCompress freshTwoSessions [2]) [1]).bOut
      = [[2, 1]] ∧
    (sendTextB histCompress freshTwoSessions [1]).bOut = [[1]] := by
  refine ⟨by decide, by decide, by decide⟩

/-- C10: feeding any sequence of application-data chunks to the fresh
session leaves the emitted input events and the retained buffer in exact
correspondence with the received byte stream: every emitted line and the
retained partial-line buffer are delimiter-free, and re-joining the
emitted lines (each followed by the delimiter) with the retained buffer
reproduces the concatenation of the received chunks byte for byte. -/
theorem C10_line_splitting (chunks : List (List Nat)) :
    glueLines (feedChunks initLineState chunks).inputfuncs_buffer
        (feedChunks initLineState chunks).game_data_buffer = chunks.flatten ∧
    (∀ l ∈ (feedChunks initLineState chunks).inputfuncs_buffer,
      splitFirst delimiter l = none) ∧
    splitFirst delimiter (feedChunks initLineState chunks).game_data_buffer = none := by
  obtain ⟨L, h1, h2, h3, h4⟩ := feedChunks_spec initLineState (by decide) chunks
  have hL : (feedChunks initLineState chunks).inputfuncs_buffer = L := by simpa using h1
  rw [hL]
  refine ⟨by simpa using h2, h3, h4⟩

/-- C10 witness: a delimiter split across two chunks is reassembled. -/
theorem C10_line_splitting_witness :
    glueLines (feedChunks initLineState [[97, 13], [10, 98]]).inputfuncs_buffer
        (feedChunks initLineState [[97, 13], [10, 98]]).game_data_buffer
      = [97, 13, 10, 98] :=
  (C10_line_splitting [[97, 13], [10, 98]]).1

/-- C5 witness: the verb actually recorded for LINEMODE at connection
start is the DO request. -/
theorem C5_do_linemode_witness : Verb.doCmd = Verb.doCmd :=
  C5_do_linemode.2 Verb.doCmd (by decide)
